import Mathlib

/-!
Verification of the LVSP connection-protocol engine (repository `bannana-pho`).

The development shallowly embeds the Rust sources:
  * `src/util.rs`    — `verify_token` (HMAC-SHA256 challenge verification),
  * `src/infoops.rs` — the INFO sub-protocol types and `get_infotype`,
  * `src/main.rs`    — the per-connection handler `handle_conn` (handshake,
    identify gate, opcode dispatch, INFO handling, error signalling).

JSON values are modelled structurally (numbers as rationals), byte strings as
`List Nat` with arithmetic carried out modulo 2^32 / 2^8 where the Rust code
uses machine integers.  Panicking operations (`expect`, `unwrap`,
`unimplemented!`, `todo!`) are modelled with an `Except Panic` result.
-/

deriving instance DecidableEq for Except

/-- Structural model of a `serde_json::Value`. Numbers are rationals; this is
exact for every integer the protocol carries and for the one non-integer
constant (`health`) the server emits. -/
inductive Json where
  | null : Json
  | jbool : Bool → Json
  | jnum : Rat → Json
  | jstr : String → Json
  | jarr : List Json → Json
  | jobj : List (String × Json) → Json

/-- Field lookup in a JSON object, as `serde_json::Value::get`. -/
def getField : List (String × Json) → String → Option Json
  | [], _ => none
  | (k, v) :: rest, key => if k = key then some v else getField rest key

/-- Panics a Rust task can raise on the paths the claims touch. -/
inductive Panic where
  | expectFail : String → Panic
  | unimplemented : Panic
  | todo : Panic
deriving DecidableEq

/-- Opcodes of the outer envelope (`src/opcodes.rs`, spec §6 wire table). -/
inductive OpCode where
  | HELLO | IDENTIFY | RESUME | READY | HEARTBEAT | HEARTBEAT_ACK | INFO
deriving DecidableEq

/-- Numeric discriminant of an opcode (HELLO=0 … INFO=6). -/
def OpCode.val : OpCode → Nat
  | .HELLO => 0
  | .IDENTIFY => 1
  | .RESUME => 2
  | .READY => 3
  | .HEARTBEAT => 4
  | .HEARTBEAT_ACK => 5
  | .INFO => 6

/-- `num_traits::FromPrimitive` for `OpCode`. -/
def opcodeOfNat : Nat → Option OpCode
  | 0 => some .HELLO
  | 1 => some .IDENTIFY
  | 2 => some .RESUME
  | 3 => some .READY
  | 4 => some .HEARTBEAT
  | 5 => some .HEARTBEAT_ACK
  | 6 => some .INFO
  | _ => none

/-- Error codes (`src/opcodes.rs` lines 45-55). -/
inductive ErrorCode where
  | GENERAL | AUTH | DECODE
deriving DecidableEq

/-- Numeric value of an error code, as the `as i32` cast in `main.rs`. -/
def ErrorCode.val : ErrorCode → Int
  | .GENERAL => 4000
  | .AUTH => 4001
  | .DECODE => 4002

/-- INFO sub-protocol discriminants (`src/infoops.rs` lines 10-38;
`VST_DESTROY = 5`, `VST_UPDATE = 6`). -/
inductive InfoType where
  | CHANNEL_REQ | CHANNEL_ASSIGN | CHANNEL_DESTROY | VST_CREATE
  | VST_DONE | VST_DESTROY | VST_UPDATE
deriving DecidableEq

/-- `#[repr(u8)]` discriminant of an `InfoType`. -/
def InfoType.val : InfoType → Nat
  | .CHANNEL_REQ => 0
  | .CHANNEL_ASSIGN => 1
  | .CHANNEL_DESTROY => 2
  | .VST_CREATE => 3
  | .VST_DONE => 4
  | .VST_DESTROY => 5
  | .VST_UPDATE => 6

/-- `serde_repr` deserialisation of an `InfoType` from its `u8` value. -/
def infoTypeOfNat : Nat → Option InfoType
  | 0 => some .CHANNEL_REQ
  | 1 => some .CHANNEL_ASSIGN
  | 2 => some .CHANNEL_DESTROY
  | 3 => some .VST_CREATE
  | 4 => some .VST_DONE
  | 5 => some .VST_DESTROY
  | 6 => some .VST_UPDATE
  | _ => none

/-- `struct CHANNEL_REQ` of `src/infoops.rs` lines 45-51. -/
structure CHANNEL_REQ where
  channel_id : String
  guild_id : Option String
deriving DecidableEq

/-- `struct VST_CREATE` of `src/infoops.rs` lines 68-77. -/
structure VST_CREATE where
  user_id : String
  channel_id : String
  guild_id : Option String
deriving DecidableEq

/-- `enum InfoData` of `src/infoops.rs` lines 80-140 (`#[serde(untagged)]`).
Variant order matters: untagged serde tries them in declaration order. -/
inductive InfoData where
  | CHANNEL_REQ : CHANNEL_REQ → InfoData
  | CHANNEL_ASSIGN : String → Option String → String → InfoData
  | CHANNEL_DESTROY : String → Option String → InfoData
  | VST_CREATE : VST_CREATE → InfoData
  | VST_DONE : String → String → Option String → String → InfoData
  | VST_DESTROY : String → InfoData
  | VST_UPDATE : String → InfoData
deriving DecidableEq

/-- `enum MessageData` as used by `main.rs` (the string-id protocol revision;
the INFO variant carries the `infoops.rs` types, per `main.rs` lines 210-219). -/
inductive MessageData where
  | HELLO : Int → String → MessageData
  | IDENTIFY : String → MessageData
  | RESUME : MessageData
  | READY : Rat → MessageData
  | HEARTBEAT : MessageData
  | HEARTBEAT_ACK : Rat → MessageData
  | INFO : InfoType → InfoData → MessageData
deriving DecidableEq

/-- `struct SocketMessage` (`src/opcodes.rs` lines 213-220). -/
structure SocketMessage where
  op : OpCode
  d : MessageData
deriving DecidableEq

/-! ## Field decoding helpers (serde semantics)

Struct deserialisation in serde requires every declared field to be present
(`Option` fields may be absent or `null`) and ignores unknown fields; these
helpers model exactly that. -/

/-- Decode a required `String` field. -/
def decStrField (fields : List (String × Json)) (name : String) : Option String :=
  match getField fields name with
  | some (Json.jstr s) => some s
  | _ => none

/-- Decode an `Option<String>` field: absent or `null` is `None`. -/
def decOptStrField (fields : List (String × Json)) (name : String) :
    Option (Option String) :=
  match getField fields name with
  | none => some none
  | some Json.null => some none
  | some (Json.jstr s) => some (some s)
  | some _ => none

/-- An integer-valued JSON number (`serde` integer fields reject fractions). -/
def jsonInt : Json → Option Int
  | Json.jnum q => if q.den = 1 then some q.num else none
  | _ => none

/-! ## Untagged decoding of `InfoData` (`src/infoops.rs`)

`#[serde(untagged)]` tries each variant in declaration order and returns the
first that deserialises; unknown fields are ignored (no `deny_unknown_fields`).
The payload variant is therefore selected purely by shape, never by the
`type` discriminant. -/

/-- First untagged attempt: `CHANNEL_REQ(CHANNEL_REQ)`. -/
def decodeChannelReq (j : Json) : Option InfoData :=
  match j with
  | Json.jobj fields =>
    match decStrField fields "channel_id", decOptStrField fields "guild_id" with
    | some c, some g => some (InfoData.CHANNEL_REQ ⟨c, g⟩)
    | _, _ => none
  | _ => none

/-- Second untagged attempt: `CHANNEL_ASSIGN`. -/
def decodeChannelAssign (j : Json) : Option InfoData :=
  match j with
  | Json.jobj fields =>
    match decStrField fields "channel_id", decOptStrField fields "guild_id",
        decStrField fields "token" with
    | some c, some g, some t => some (InfoData.CHANNEL_ASSIGN c g t)
    | _, _, _ => none
  | _ => none

/-- Third untagged attempt: `CHANNEL_DESTROY`. -/
def decodeChannelDestroy (j : Json) : Option InfoData :=
  match j with
  | Json.jobj fields =>
    match decStrField fields "channel_id", decOptStrField fields "guild_id" with
    | some c, some g => some (InfoData.CHANNEL_DESTROY c g)
    | _, _ => none
  | _ => none

/-- Fourth untagged attempt: `VST_CREATE(VST_CREATE)`. -/
def decodeVstCreate (j : Json) : Option InfoData :=
  match j with
  | Json.jobj fields =>
    match decStrField fields "user_id", decStrField fields "channel_id",
        decOptStrField fields "guild_id" with
    | some u, some c, some g => some (InfoData.VST_CREATE ⟨u, c, g⟩)
    | _, _, _ => none
  | _ => none

/-- Fifth untagged attempt: `VST_DONE`. -/
def decodeVstDone (j : Json) : Option InfoData :=
  match j with
  | Json.jobj fields =>
    match decStrField fields "user_id", decStrField fields "channel_id",
        decOptStrField fields "guild_id", decStrField fields "session_id" with
    | some u, some c, some g, some s => some (InfoData.VST_DONE u c g s)
    | _, _, _, _ => none
  | _ => none

/-- Sixth untagged attempt: `VST_DESTROY`. -/
def decodeVstDestroy (j : Json) : Option InfoData :=
  match j with
  | Json.jobj fields =>
    match decStrField fields "session_id" with
    | some s => some (InfoData.VST_DESTROY s)
    | _ => none
  | _ => none

/-- Seventh untagged attempt: `VST_UPDATE`. -/
def decodeVstUpdate (j : Json) : Option InfoData :=
  match j with
  | Json.jobj fields =>
    match decStrField fields "session_id" with
    | some s => some (InfoData.VST_UPDATE s)
    | _ => none
  | _ => none

/-- `#[serde(untagged)]` deserialisation of `InfoData`: first matching variant
in declaration order wins. -/
def decodeInfoData (j : Json) : Option InfoData :=
  (decodeChannelReq j).orElse fun _ =>
  (decodeChannelAssign j).orElse fun _ =>
  (decodeChannelDestroy j).orElse fun _ =>
  (decodeVstCreate j).orElse fun _ =>
  (decodeVstDone j).orElse fun _ =>
  (decodeVstDestroy j).orElse fun _ =>
  decodeVstUpdate j

/-- Deserialisation of the inner `INFO { type, data }` struct consumed by
`get_infotype` (`src/infoops.rs` lines 149-153): `type` via `serde_repr`,
`data` via the untagged `InfoData`. -/
def decodeInfoStruct (j : Json) : Option (InfoType × InfoData) :=
  match j with
  | Json.jobj fields =>
    match getField fields "type", getField fields "data" with
    | some tj, some dj =>
      match jsonInt tj with
      | some n =>
        if n < 0 then none
        else
          match infoTypeOfNat n.toNat, decodeInfoData dj with
          | some t, some d => some (t, d)
          | _, _ => none
      | none => none
    | _, _ => none
  | _ => none

/-- `get_infotype` (`src/infoops.rs` lines 142-157).  Input is the parsed JSON
of the whole message (`none` when the frame text is not valid JSON, in which
case the function returns `Err(())`, modelled `Except.ok none`).  When the
message lacks a `"d"` field the source `unwrap`s, and when the inner struct
fails to parse the source `expect`s — both are panics. -/
def get_infotype (msg : Option Json) : Except Panic (Option (InfoType × InfoData)) :=
  match msg with
  | none => Except.ok none
  | some j =>
    match j with
    | Json.jobj fields =>
      match getField fields "d" with
      | none => Except.error (Panic.expectFail "called Option.unwrap on a None value")
      | some d =>
        match decodeInfoStruct d with
        | none => Except.error (Panic.expectFail "Failed to get inner data for InfoData!")
        | some td => Except.ok (some td)
    | _ => Except.error (Panic.expectFail "called Option.unwrap on a None value")

/-! ## Encoding (serde `Serialize` derives, spec §6 wire format)

`main.rs` serialises outbound messages with `serde_json::to_string` on
`SocketMessage`; fields appear in declaration order and `Option::None`
serialises as `null`. -/

/-- Serialisation of an `Option<String>` field. -/
def encodeOptStr : Option String → Json
  | none => Json.null
  | some s => Json.jstr s

/-- Serialisation of `InfoData` (`#[serde(untagged)]`: the variant's own shape,
no tag). -/
def encodeInfoData : InfoData → Json
  | InfoData.CHANNEL_REQ c =>
      Json.jobj [("channel_id", Json.jstr c.channel_id),
                 ("guild_id", encodeOptStr c.guild_id)]
  | InfoData.CHANNEL_ASSIGN c g t =>
      Json.jobj [("channel_id", Json.jstr c), ("guild_id", encodeOptStr g),
                 ("token", Json.jstr t)]
  | InfoData.CHANNEL_DESTROY c g =>
      Json.jobj [("channel_id", Json.jstr c), ("guild_id", encodeOptStr g)]
  | InfoData.VST_CREATE v =>
      Json.jobj [("user_id", Json.jstr v.user_id),
                 ("channel_id", Json.jstr v.channel_id),
                 ("guild_id", encodeOptStr v.guild_id)]
  | InfoData.VST_DONE u c g s =>
      Json.jobj [("user_id", Json.jstr u), ("channel_id", Json.jstr c),
                 ("guild_id", encodeOptStr g), ("session_id", Json.jstr s)]
  | InfoData.VST_DESTROY s => Json.jobj [("session_id", Json.jstr s)]
  | InfoData.VST_UPDATE s => Json.jobj [("session_id", Json.jstr s)]

/-- Serialisation of the `d` payload of each opcode (spec §6 wire table;
`RESUME`'s payload is unspecified and never sent by the server). -/
def encodeMessageData : MessageData → Json
  | MessageData.HELLO h nonce =>
      Json.jobj [("heartbeat_interval", Json.jnum (h : Rat)),
                 ("nonce", Json.jstr nonce)]
  | MessageData.IDENTIFY token => Json.jobj [("token", Json.jstr token)]
  | MessageData.RESUME => Json.jobj []
  | MessageData.READY health => Json.jobj [("health", Json.jnum health)]
  | MessageData.HEARTBEAT => Json.jobj []
  | MessageData.HEARTBEAT_ACK health => Json.jobj [("health", Json.jnum health)]
  | MessageData.INFO t d =>
      Json.jobj [("type", Json.jnum (t.val : Rat)), ("data", encodeInfoData d)]

/-- Serialisation of a whole `SocketMessage` as the `{op, d}` envelope. -/
def encodeMessage (m : SocketMessage) : Json :=
  Json.jobj [("op", Json.jnum (m.op.val : Rat)), ("d", encodeMessageData m.d)]

/-- Per-opcode deserialisation of the `d` payload.
Modelled from the spec: `get_opcode` is imported by `main.rs` from
`opcodes.rs` but absent from the sources; the outer `{op, d}` decode follows
spec §4.1 and the §6 wire table, while the INFO payload case defers to the
untagged `InfoData` decode of `src/infoops.rs` (which is what `main.rs`
ultimately dispatches on via `get_infotype`). -/
def decodeDataFor : OpCode → Json → Option MessageData
  | OpCode.HELLO, Json.jobj f =>
    match getField f "heartbeat_interval", decStrField f "nonce" with
    | some hj, some nonce => (jsonInt hj).map fun h => MessageData.HELLO h nonce
    | _, _ => none
  | OpCode.IDENTIFY, Json.jobj f =>
      (decStrField f "token").map MessageData.IDENTIFY
  | OpCode.RESUME, _ => some MessageData.RESUME
  | OpCode.READY, Json.jobj f =>
    match getField f "health" with
    | some (Json.jnum q) => some (MessageData.READY q)
    | _ => none
  | OpCode.HEARTBEAT, Json.jobj [] => some MessageData.HEARTBEAT
  | OpCode.HEARTBEAT_ACK, Json.jobj f =>
    match getField f "health" with
    | some (Json.jnum q) => some (MessageData.HEARTBEAT_ACK q)
    | _ => none
  | OpCode.INFO, dj => (decodeInfoStruct dj).map fun td => MessageData.INFO td.1 td.2
  | _, _ => none

/-- `get_opcode` applied to an inbound text frame's parsed JSON.
Modelled from the spec (§4.1): invalid JSON, a missing or non-integer `op`,
an unknown `op` value, or a `d` payload not matching the opcode all yield a
decode failure (`none`). -/
def get_opcode (j : Json) : Option (OpCode × MessageData) :=
  match j with
  | Json.jobj fields =>
    match getField fields "op", getField fields "d" with
    | some opj, some dj =>
      match jsonInt opj with
      | some n =>
        if n < 0 then none
        else
          match opcodeOfNat n.toNat with
          | some op => (decodeDataFor op dj).map fun d => (op, d)
          | none => none
      | none => none
    | _, _ => none
  | _ => none

/-! ## Bytes, hex, UTF-8 -/

/-- UTF-8 encoding of one scalar value (what Rust's `str::as_bytes` exposes). -/
def utf8EncodeChar (c : Char) : List Nat :=
  let n := c.toNat
  if n < 128 then [n]
  else if n < 2048 then [192 + n / 64, 128 + n % 64]
  else if n < 65536 then [224 + n / 4096, 128 + n / 64 % 64, 128 + n % 64]
  else [240 + n / 262144, 128 + n / 4096 % 64, 128 + n / 64 % 64, 128 + n % 64]

/-- UTF-8 bytes of a string. -/
def utf8Bytes (s : String) : List Nat :=
  (s.data.map utf8EncodeChar).flatten

/-- Value of one hex digit (`hex` crate accepts both cases); 48-57 are the
digits, 97-102 lowercase a-f, 65-70 uppercase A-F. -/
def hexDigitVal (c : Char) : Option Nat :=
  let n := c.toNat
  if 48 ≤ n ∧ n ≤ 57 then some (n - 48)
  else if 97 ≤ n ∧ n ≤ 102 then some (n - 87)
  else if 65 ≤ n ∧ n ≤ 70 then some (n - 55)
  else none

/-- `hex::decode` on a character list: fails on odd length or a non-hex digit. -/
def hexDecodeList : List Char → Option (List Nat)
  | [] => some []
  | [_] => none
  | a :: b :: rest =>
    match hexDigitVal a, hexDigitVal b, hexDecodeList rest with
    | some x, some y, some tl => some ((x * 16 + y) :: tl)
    | _, _, _ => none

/-- `hex::decode`. -/
def hexDecode (s : String) : Option (List Nat) :=
  hexDecodeList s.data

/-- Lowercase hex digit for a nibble (48 is the code point of '0', 97 that
of 'a'). -/
def hexChar (n : Nat) : Char :=
  if n < 10 then Char.ofNat (48 + n) else Char.ofNat (87 + n)

/-- `hex::encode` (lowercase) of a byte list (bytes are < 256). -/
def hexEncode (l : List Nat) : String :=
  String.mk ((l.map fun b => [hexChar (b / 16), hexChar (b % 16)]).flatten)

/-! ## SHA-256 and HMAC (FIPS 180-4 / RFC 2104), words as `Nat % 2^32` -/

/-- Truncation to a 32-bit word. -/
def w32 (x : Nat) : Nat := x % 4294967296

/-- 32-bit right rotation (inputs are < 2^32). -/
def rotr32 (n x : Nat) : Nat := w32 ((x >>> n) ||| (x <<< (32 - n)))

/-- SHA-256 `Ch` (the complement of `x` is taken by xor against the all-ones
word). -/
def shaCh (x y z : Nat) : Nat :=
  Nat.xor (Nat.land x y) (Nat.land (Nat.xor x 4294967295) z)

/-- SHA-256 `Maj`. -/
def shaMaj (x y z : Nat) : Nat :=
  Nat.xor (Nat.xor (Nat.land x y) (Nat.land x z)) (Nat.land y z)

/-- SHA-256 Σ₀. -/
def bsig0 (x : Nat) : Nat := rotr32 2 x ^^^ rotr32 13 x ^^^ rotr32 22 x

/-- SHA-256 Σ₁. -/
def bsig1 (x : Nat) : Nat := rotr32 6 x ^^^ rotr32 11 x ^^^ rotr32 25 x

/-- SHA-256 σ₀. -/
def ssig0 (x : Nat) : Nat := rotr32 7 x ^^^ rotr32 18 x ^^^ (x >>> 3)

/-- SHA-256 σ₁. -/
def ssig1 (x : Nat) : Nat := rotr32 17 x ^^^ rotr32 19 x ^^^ (x >>> 10)

/-- SHA-256 round constants (FIPS 180-4 §4.2.2, written in decimal). -/
def shaK : List Nat :=
  [1116352408, 1899447441, 3049323471, 3921009573, 961987163,
   1508970993, 2453635748, 2870763221, 3624381080, 310598401,
   607225278, 1426881987, 1925078388, 2162078206, 2614888103,
   3248222580, 3835390401, 4022224774, 264347078, 604807628,
   770255983, 1249150122, 1555081692, 1996064986, 2554220882,
   2821834349, 2952996808, 3210313671, 3336571891, 3584528711,
   113926993, 338241895, 666307205, 773529912, 1294757372,
   1396182291, 1695183700, 1986661051, 2177026350, 2456956037,
   2730485921, 2820302411, 3259730800, 3345764771, 3516065817,
   3600352804, 4094571909, 275423344, 430227734, 506948616,
   659060556, 883997877, 958139571, 1322822218, 1537002063,
   1747873779, 1955562222, 2024104815, 2227730452, 2361852424,
   2428436474, 2756734187, 3204031479, 3329325298]

/-- SHA-256 initial hash value (FIPS 180-4 §5.3.3, written in decimal). -/
def shaH0 : List Nat :=
  [1779033703, 3144134277, 1013904242, 2773480762,
   1359893119, 2600822924, 528734635, 1541459225]

/-- Big-endian byte representation of `v` on `n` bytes. -/
def beBytes (n v : Nat) : List Nat :=
  (List.range n).map fun i => (v >>> (8 * (n - 1 - i))) % 256

/-- Big-endian word value of a byte list. -/
def beWord (l : List Nat) : Nat :=
  l.foldl (fun acc b => acc * 256 + b) 0

/-- SHA-256 message padding. -/
def sha256Pad (msg : List Nat) : List Nat :=
  msg ++ [128] ++ List.replicate ((119 - msg.length % 64) % 64) 0
      ++ beBytes 8 (msg.length * 8)

/-- Extend 16 schedule words to 64. -/
def shaSchedule (w0 : List Nat) : List Nat :=
  (List.range 48).foldl
    (fun ws t =>
      ws ++ [w32 (ssig1 (ws.getD (t + 14) 0) + ws.getD (t + 9) 0
                  + ssig0 (ws.getD (t + 1) 0) + ws.getD t 0)])
    w0

/-- One SHA-256 compression step over a 64-byte block. -/
def shaCompress (hs : List Nat) (blockBytes : List Nat) : List Nat :=
  let w := shaSchedule ((List.range 16).map fun i =>
    beWord ((blockBytes.drop (4 * i)).take 4))
  let a0 := hs.getD 0 0
  let b0 := hs.getD 1 0
  let c0 := hs.getD 2 0
  let d0 := hs.getD 3 0
  let e0 := hs.getD 4 0
  let f0 := hs.getD 5 0
  let g0 := hs.getD 6 0
  let h0 := hs.getD 7 0
  let st := (List.range 64).foldl
    (fun st t =>
      match st with
      | (a, b, c, d, e, f, g, h) =>
        let t1 := w32 (h + bsig1 e + shaCh e f g + shaK.getD t 0 + w.getD t 0)
        let t2 := w32 (bsig0 a + shaMaj a b c)
        (w32 (t1 + t2), a, b, c, w32 (d + t1), e, f, g))
    (a0, b0, c0, d0, e0, f0, g0, h0)
  match st with
  | (a, b, c, d, e, f, g, h) =>
    [w32 (a0 + a), w32 (b0 + b), w32 (c0 + c), w32 (d0 + d),
     w32 (e0 + e), w32 (f0 + f), w32 (g0 + g), w32 (h0 + h)]

/-- SHA-256 of a byte list, as 32 digest bytes. -/
def sha256 (msg : List Nat) : List Nat :=
  let p := sha256Pad msg
  let hs := (List.range (p.length / 64)).foldl
    (fun hs i => shaCompress hs ((p.drop (64 * i)).take 64)) shaH0
  (hs.map (beBytes 4)).flatten

/-- HMAC-SHA256 (RFC 2104), the `Hmac<Sha256>` of `src/util.rs`. -/
def hmacSha256 (key msg : List Nat) : List Nat :=
  let k := if 64 < key.length then sha256 key else key
  let kp := k ++ List.replicate (64 - k.length) 0
  sha256 ((kp.map fun b => b ^^^ 92) ++ sha256 ((kp.map fun b => b ^^^ 54) ++ msg))

/-- `verify_token` (`src/util.rs` lines 6-13).  `HmacSha256::new_from_slice`
cannot fail for HMAC (any key length is accepted), `nonce.expect` panics when
the nonce is absent, and `hex::decode(token).expect` panics when the token is
not valid hex; `verify_slice` is a (constant-time) whole-tag comparison. -/
def verify_token (secret : String) (nonce : Option String) (token : String) :
    Except Panic Bool :=
  match nonce with
  | none => Except.error (Panic.expectFail "Missing nonce?")
  | some n =>
    match hexDecode token with
    | none => Except.error (Panic.expectFail "Failed to get token as bytes!")
    | some bytes =>
      Except.ok (hmacSha256 (utf8Bytes secret) (utf8Bytes n) == bytes)

/-! ## JSON rendering (`serde_json::to_string`) -/

/-- Decimal digits of the fractional part of `r / d` (fuel-bounded; every
number the server emits terminates well within the fuel). -/
def fracDigits : Nat → Nat → Nat → List Char
  | 0, _, _ => []
  | _, 0, _ => []
  | fuel + 1, r, d => hexChar (r * 10 / d) :: fracDigits fuel (r * 10 % d) d

/-- Decimal rendering of a rational (integers render with no point, as
`serde_json` renders integer-valued fields). -/
def ratDecimalString (q : Rat) : String :=
  let sign := if q.num < 0 then "-" else ""
  let n := q.num.natAbs
  if q.den = 1 then sign ++ toString n
  else sign ++ toString (n / q.den) ++ "." ++ String.mk (fracDigits 40 (n % q.den) q.den)

/-- JSON string escaping as `serde_json` performs it. -/
def escapeJsonChar (c : Char) : String :=
  if c = '"' then "\\\""
  else if c = '\\' then "\\\\"
  else if c = Char.ofNat 8 then "\\b"
  else if c = Char.ofNat 9 then "\\t"
  else if c = Char.ofNat 10 then "\\n"
  else if c = Char.ofNat 12 then "\\f"
  else if c = Char.ofNat 13 then "\\r"
  else if c.toNat < 32 then
    "\\u00" ++ String.mk [hexChar (c.toNat / 16), hexChar (c.toNat % 16)]
  else String.singleton c

/-- Render a JSON string literal. -/
def renderJsonString (s : String) : String :=
  "\"" ++ String.join (s.data.map escapeJsonChar) ++ "\""

mutual

/-- Compact rendering of a JSON value (`serde_json::to_string`). -/
def renderJson : Json → String
  | Json.null => "null"
  | Json.jbool true => "true"
  | Json.jbool false => "false"
  | Json.jnum q => ratDecimalString q
  | Json.jstr s => renderJsonString s
  | Json.jarr xs => "[" ++ renderJsonArr xs ++ "]"
  | Json.jobj fs => "\x7b" ++ renderJsonObj fs ++ "\x7d"

/-- Comma-joined array elements. -/
def renderJsonArr : List Json → String
  | [] => ""
  | [x] => renderJson x
  | x :: xs => renderJson x ++ "," ++ renderJsonArr xs

/-- Comma-joined object fields. -/
def renderJsonObj : List (String × Json) → String
  | [] => ""
  | [(k, v)] => renderJsonString k ++ ":" ++ renderJson v
  | (k, v) :: fs => renderJsonString k ++ ":" ++ renderJson v ++ "," ++ renderJsonObj fs

end

/-! ## Session Store (the Redis commands `main.rs` issues) -/

/-- State of the Session Store: string keys to string values (`SET`/`GET`) and
string keys to sets (`SADD`), the only operations the handler uses. -/
structure Store where
  kv : List (String × String)
  sets : List (String × List String)
deriving DecidableEq

/-- `SET key value` (unconditional upsert; newest binding shadows). -/
def Store.set (st : Store) (key value : String) : Store :=
  { st with kv := (key, value) :: st.kv }

/-- `GET key`. -/
def Store.get (st : Store) (key : String) : Option String :=
  (st.kv.find? fun p => decide (p.1 = key)).map Prod.snd

/-- Members of the set at `key` (empty when absent). -/
def Store.setMembers (st : Store) (key : String) : List String :=
  ((st.sets.find? fun p => decide (p.1 = key)).map Prod.snd).getD []

/-- `SADD key elems`: atomically add the elements, returning the new store and
how many of them were newly added (Redis's reply, which `main.rs` discards). -/
def Store.sadd (st : Store) (key : String) (elems : List String) : Store × Nat :=
  let cur := st.setMembers key
  let fresh := elems.foldl (fun acc e => if e ∈ cur ∨ e ∈ acc then acc else acc ++ [e]) []
  ({ st with sets := (key, cur ++ fresh) :: st.sets.filter fun p => decide (p.1 ≠ key) },
   fresh.length)

/-! ## The connection handler (`main.rs` `handle_conn`) -/

/-- Immutable per-process configuration shared by all connections. -/
structure Config where
  sharedSecret : String

/-- The 62-character alphabet of `rand::distributions::Alphanumeric`. -/
def alphanumericChars : List Char :=
  "ABCDEFGHIJKLMNOPQRSTUVWXYZabcdefghijklmnopqrstuvwxyz0123456789".data

/-- One sampled alphanumeric character; the RNG draw is modelled as an
arbitrary natural mapped uniformly onto the alphabet. -/
def alphanumericChar (n : Nat) : Char :=
  alphanumericChars.getD (n % 62) 'A'

/-- `thread_rng().sample_iter(&Alphanumeric).take(count)`: the random string
generation used for the nonce (10), channel tokens (64) and session ids (32).
`rng i` is the i-th raw draw of the thread RNG. -/
def genAlphanumeric (rng : Nat → Nat) (count : Nat) : String :=
  String.mk ((List.range count).map fun i => alphanumericChar (rng i))

/-- `HashSet::insert`: `true` iff the element was not yet present. -/
def hashSetInsert (s : List String) (x : String) : Bool × List String :=
  if x ∈ s then (false, s) else (true, s ++ [x])

/-- An outbound frame: either a serialised `SocketMessage` envelope or a bare
numeric error code, exactly the two `Message::Text` shapes `main.rs` sends. -/
inductive Out where
  | msg : SocketMessage → Out
  | err : ErrorCode → Out
deriving DecidableEq

/-- A frame on the wire. -/
inductive WireFrame where
  | text : String → WireFrame
  | close : WireFrame
deriving DecidableEq

/-- The bytes actually written for an outbound frame: envelopes are
`serde_json::to_string(&SocketMessage)`, error signals are
`(ErrorCode as i32).to_string()` (`main.rs` lines 126, 153, 156, …). -/
def renderOut : Out → WireFrame
  | Out.msg m => WireFrame.text (renderJson (encodeMessage m))
  | Out.err c => WireFrame.text (toString c.val)

/-- Events of the connection-entry sequence (`main.rs` lines 86-108). -/
inductive Ev where
  | storeSet : String → String → Ev
  | send : Out → Ev
deriving DecidableEq

/-- Connection entry: generate the 10-character nonce, store it under
`"{peer}_nonce"`, then send `HELLO {heartbeat_interval, nonce}`
(`main.rs` lines 86-108).  `heartbeatInterval` is the configured value
(`HEARTBEAT_INTERVAL` env var, defaulting to 1). -/
def handshake (peer : String) (heartbeatInterval : Int) (rng : Nat → Nat) : List Ev :=
  let nonce := genAlphanumeric rng 10
  [Ev.storeSet (peer ++ "_nonce") nonce,
   Ev.send (Out.msg ⟨OpCode.HELLO, MessageData.HELLO heartbeatInterval nonce⟩)]

/-- The INFO dispatch (`main.rs` lines 180-284).  The conflict "check" builds
a fresh local `HashSet`, inserts the just-generated token into it, and only
consults that insert's result; the Redis `SADD` reply is discarded
(`let _: () = redis.sadd(...)`).  `CHANNEL_DESTROY`, `VST_UPDATE` and
`VST_DESTROY` are `todo!()`, a panic.  The server's `health` constant is the
`f32` literal `6.9`, modelled by the rational 69/10. -/
def handleInfo (redis : Store) (t : InfoType) (data : InfoData) (rng : Nat → Nat) :
    Except Panic (Store × List Out) :=
  match t with
  | InfoType.CHANNEL_REQ =>
    match data with
    | InfoData.CHANNEL_REQ dn =>
      let guild_id := dn.guild_id.getD "dm"
      let token := genAlphanumeric rng 64
      let channel_set : List String := []
      let ins := hashSetInsert channel_set ("token_" ++ token)
      if ins.1 then
        let r := redis.sadd (guild_id ++ "_" ++ dn.channel_id ++ "_voice") ins.2
        Except.ok (r.1,
          [Out.msg ⟨OpCode.INFO, MessageData.INFO InfoType.CHANNEL_ASSIGN
            (InfoData.CHANNEL_ASSIGN dn.channel_id dn.guild_id token)⟩])
      else
        Except.ok (redis, [Out.err ErrorCode.GENERAL])
    | _ => Except.ok (redis, [Out.err ErrorCode.DECODE])
  | InfoType.CHANNEL_DESTROY => Except.error Panic.todo
  | InfoType.VST_CREATE =>
    match data with
    | InfoData.VST_CREATE dn =>
      let guild_id := dn.guild_id.getD "dm"
      let session_id := genAlphanumeric rng 32
      let channel_set : List String := []
      let ins := hashSetInsert channel_set session_id
      if ins.1 then
        let r := redis.sadd (guild_id ++ "_" ++ dn.channel_id ++ "_voice") ins.2
        Except.ok (r.1,
          [Out.msg ⟨OpCode.INFO, MessageData.INFO InfoType.VST_DONE
            (InfoData.VST_DONE dn.user_id dn.channel_id dn.guild_id session_id)⟩])
      else
        Except.ok (redis, [Out.err ErrorCode.GENERAL])
    | _ => Except.ok (redis, [Out.err ErrorCode.DECODE])
  | InfoType.VST_UPDATE => Except.error Panic.todo
  | InfoType.VST_DESTROY => Except.error Panic.todo
  | _ => Except.ok (redis, [Out.err ErrorCode.DECODE])

/-- Handling of one inbound text frame (`main.rs` lines 119-292):
decode via `get_opcode`, apply the identify gate, then dispatch.
`msgJson` is the frame's parsed JSON (`none` when the text is not valid
JSON, which `get_opcode` reports as a decode failure). -/
def handleText (cfg : Config) (peer : String) (redis : Store) (identified : Bool)
    (msgJson : Option Json) (rng : Nat → Nat) : Except Panic (Store × Bool × List Out) :=
  match msgJson with
  | none => Except.ok (redis, identified, [Out.err ErrorCode.DECODE])
  | some j =>
    match get_opcode j with
    | none => Except.ok (redis, identified, [Out.err ErrorCode.DECODE])
    | some od =>
      if identified = false ∧ od.1 ≠ OpCode.IDENTIFY then
        Except.ok (redis, identified, [Out.err ErrorCode.AUTH])
      else
        match od.1 with
        | OpCode.IDENTIFY =>
          match od.2 with
          | MessageData.IDENTIFY token =>
            let nonce := redis.get (peer ++ "_nonce")
            match verify_token cfg.sharedSecret nonce token with
            | Except.error p => Except.error p
            | Except.ok true =>
              Except.ok (redis, true,
                [Out.msg ⟨OpCode.READY, MessageData.READY (mkRat 69 10)⟩])
            | Except.ok false =>
              Except.ok (redis, identified, [Out.err ErrorCode.AUTH])
          | _ => Except.ok (redis, identified, [Out.err ErrorCode.DECODE])
        | OpCode.RESUME => Except.error Panic.unimplemented
        | OpCode.HEARTBEAT =>
          Except.ok (redis, identified,
            [Out.msg ⟨OpCode.HEARTBEAT_ACK, MessageData.HEARTBEAT_ACK (mkRat 69 10)⟩])
        | OpCode.INFO =>
          match get_infotype (some j) with
          | Except.error p => Except.error p
          | Except.ok none => Except.ok (redis, identified, [Out.err ErrorCode.DECODE])
          | Except.ok (some td) =>
            match handleInfo redis td.1 td.2 rng with
            | Except.error p => Except.error p
            | Except.ok r => Except.ok (r.1, identified, r.2)
        | _ => Except.ok (redis, identified, [Out.err ErrorCode.DECODE])

/-- Whether the receive loop continues after a frame. -/
inductive LoopCtl where
  | cont | brk
deriving DecidableEq

/-- One inbound WebSocket frame as `main.rs` classifies it
(`is_text` / `is_close` / anything else). -/
inductive InFrame where
  | text : Option Json → InFrame
  | binary : InFrame
  | close : InFrame

/-- One iteration of the receive loop for an inbound frame
(`main.rs` lines 114-298): text frames are handled and the loop continues;
a close frame breaks the loop; any other frame does nothing. -/
def handleFrame (cfg : Config) (peer : String) (redis : Store) (identified : Bool)
    (f : InFrame) (rng : Nat → Nat) : Except Panic (Store × Bool × List Out × LoopCtl) :=
  match f with
  | InFrame.close => Except.ok (redis, identified, [], LoopCtl.brk)
  | InFrame.binary => Except.ok (redis, identified, [], LoopCtl.cont)
  | InFrame.text j =>
    (handleText cfg peer redis identified j rng).map fun r =>
      (r.1, r.2.1, r.2.2, LoopCtl.cont)

/-! ## Concrete fixtures used by the theorems -/

/-- A concrete configuration. -/
def cfg0 : Config := ⟨"secret"⟩

/-- A concrete RNG stream (every draw is 0, so every sampled character is 'A'). -/
def rng0 : Nat → Nat := fun _ => 0

/-- The empty store. -/
def store0 : Store := ⟨[], []⟩

/-- The 64-character token `rng0` produces for a channel allocation. -/
def tok64 : String := String.mk (List.replicate 64 'A')

/-- A store whose `dm_3_voice` set already contains the very token the handler
is about to generate — the forced-collision scenario of spec §8. -/
def storeConflict : Store := ⟨[], [("dm_3_voice", ["token_" ++ tok64])]⟩

/-- The frame `{"op": 4, "d": {}}` (HEARTBEAT). -/
def jHeartbeat : Json := Json.jobj [("op", Json.jnum 4), ("d", Json.jobj [])]

/-- The frame `{"op": 2, "d": {}}` (RESUME). -/
def jResume : Json := Json.jobj [("op", Json.jnum 2), ("d", Json.jobj [])]

/-- An INFO frame whose declared type is CHANNEL_REQ (0) but whose `data`
carries VST_CREATE's fields. -/
def jInfoMismatch : Json :=
  Json.jobj [("op", Json.jnum 6), ("d", Json.jobj
    [("type", Json.jnum 0), ("data", Json.jobj
      [("user_id", Json.jstr "7"), ("channel_id", Json.jstr "3"),
       ("guild_id", Json.null)])])]

/-- A typed CHANNEL_DESTROY envelope, input of the round-trip counterexample. -/
def msgChannelDestroy : SocketMessage :=
  ⟨OpCode.INFO, MessageData.INFO InfoType.CHANNEL_DESTROY
    (InfoData.CHANNEL_DESTROY "1" none)⟩

/-- Hex encoding of `HMAC_SHA256("secret", "AbC1234xyz")`, i.e. the valid
authentication token for `cfg0`'s secret and the stored nonce below. -/
def goodToken : String :=
  "12d6f054232461452b6da7769091399c539592c1de2c346fcbca63f2862cc388"

/-- A store holding the nonce `"AbC1234xyz"` for peer `127.0.0.1:9`. -/
def storeNonce : Store := ⟨[("127.0.0.1:9_nonce", "AbC1234xyz")], []⟩

/-- A valid IDENTIFY frame for `cfg0` and `storeNonce`. -/
def jIdentifyGood : Json :=
  Json.jobj [("op", Json.jnum 1), ("d", Json.jobj [("token", Json.jstr goodToken)])]

/-! ## Theorems -/

set_option maxRecDepth 40000

/-- Every character the `Alphanumeric` sampler produces is alphanumeric. -/
theorem alphanumericChar_isAlphanum (n : Nat) :
    (alphanumericChar n).isAlphanum = true := by
  have h : ∀ k, k < 62 → ((alphanumericChars.getD k 'A').isAlphanum = true) := by decide
  exact h (n % 62) (Nat.mod_lt n (by decide))

/-- Claim C2: while un-identified, every successfully decoded inbound opcode
other than IDENTIFY (HEARTBEAT included) is answered with the single AUTH
error signal, the store is untouched, the connection stays un-identified, and
the receive loop continues. -/
theorem identify_gate_rejects_with_auth (cfg : Config) (peer : String) (st : Store)
    (j : Json) (op : OpCode) (d : MessageData) (rng : Nat → Nat)
    (hdec : get_opcode j = some (op, d)) (hop : op ≠ OpCode.IDENTIFY) :
    handleFrame cfg peer st false (InFrame.text (some j)) rng =
      Except.ok (st, false, [Out.err ErrorCode.AUTH], LoopCtl.cont) := by
  simp [handleFrame, handleText, hdec, hop, Except.map]

/-- Witness for C2: a HEARTBEAT sent before IDENTIFY gets exactly the AUTH
signal and no state change. -/
theorem identify_gate_rejects_with_auth_witness :
    handleFrame cfg0 "p" store0 false (InFrame.text (some jHeartbeat)) rng0 =
      Except.ok (store0, false, [Out.err ErrorCode.AUTH], LoopCtl.cont) :=
  identify_gate_rejects_with_auth cfg0 "p" store0 jHeartbeat OpCode.HEARTBEAT
    MessageData.HEARTBEAT rng0 (by decide) (by decide)

/-- Claim C1 (code bug): the CHANNEL_REQ success/conflict decision is NOT made
from the Session Store's `SADD` reply.  The handler inserts the fresh token
into a newly created local `HashSet`, which always succeeds, so it replies
CHANNEL_ASSIGN unconditionally (first conjunct, for every store, request and
RNG — the GENERAL branch is unreachable); likewise VST_CREATE always replies
VST_DONE (second conjunct).  On the concrete forced-collision store, whose
set already holds the generated token and for which the store's `SADD` reply
is 0 (fourth conjunct), the handler still sends CHANNEL_ASSIGN and no GENERAL
(third conjunct). -/
theorem channelreq_conflict_ignores_store :
    (∀ (st : Store) (dn : CHANNEL_REQ) (rng : Nat → Nat),
      handleInfo st InfoType.CHANNEL_REQ (InfoData.CHANNEL_REQ dn) rng =
        Except.ok ((st.sadd (dn.guild_id.getD "dm" ++ "_" ++ dn.channel_id ++ "_voice")
            ["token_" ++ genAlphanumeric rng 64]).1,
          [Out.msg ⟨OpCode.INFO, MessageData.INFO InfoType.CHANNEL_ASSIGN
            (InfoData.CHANNEL_ASSIGN dn.channel_id dn.guild_id (genAlphanumeric rng 64))⟩])) ∧
    (∀ (st : Store) (dn : VST_CREATE) (rng : Nat → Nat),
      handleInfo st InfoType.VST_CREATE (InfoData.VST_CREATE dn) rng =
        Except.ok ((st.sadd (dn.guild_id.getD "dm" ++ "_" ++ dn.channel_id ++ "_voice")
            [genAlphanumeric rng 32]).1,
          [Out.msg ⟨OpCode.INFO, MessageData.INFO InfoType.VST_DONE
            (InfoData.VST_DONE dn.user_id dn.channel_id dn.guild_id
              (genAlphanumeric rng 32))⟩])) ∧
    handleInfo storeConflict InfoType.CHANNEL_REQ (InfoData.CHANNEL_REQ ⟨"3", none⟩) rng0 =
      Except.ok (storeConflict,
        [Out.msg ⟨OpCode.INFO, MessageData.INFO InfoType.CHANNEL_ASSIGN
          (InfoData.CHANNEL_ASSIGN "3" none tok64)⟩]) ∧
    (storeConflict.sadd "dm_3_voice" ["token_" ++ tok64]).2 = 0 := by
  refine ⟨?_, ?_, by decide, by decide⟩
  · intro st dn rng
    simp [handleInfo, hashSetInsert]
  · intro st dn rng
    simp [handleInfo, hashSetInsert]

/-- Claim C3 (code bug): `verify_token` does not return `false` when the nonce
is absent or the token is not valid hex — it panics through `expect` in both
cases. -/
theorem verify_token_panics_not_false :
    verify_token "s" none "00" = Except.error (Panic.expectFail "Missing nonce?") ∧
    verify_token "s" (some "n") "zz" =
      Except.error (Panic.expectFail "Failed to get token as bytes!") := by
  exact ⟨by decide, by decide⟩

/-- Claim C4 (code bug): RESUME on an identified connection and the INFO types
CHANNEL_DESTROY / VST_UPDATE / VST_DESTROY do not produce a not-implemented
signal to the peer — they panic (`unimplemented!` / `todo!`), aborting the
connection-handling task with no outbound message. -/
theorem unimplemented_paths_panic :
    handleText cfg0 "p" store0 true (some jResume) rng0 =
      Except.error Panic.unimplemented ∧
    handleInfo store0 InfoType.CHANNEL_DESTROY (InfoData.CHANNEL_DESTROY "1" none) rng0 =
      Except.error Panic.todo ∧
    handleInfo store0 InfoType.VST_UPDATE (InfoData.VST_UPDATE "s") rng0 =
      Except.error Panic.todo ∧
    handleInfo store0 InfoType.VST_DESTROY (InfoData.VST_DESTROY "s") rng0 =
      Except.error Panic.todo := by
  exact ⟨by decide, by decide, by decide, by decide⟩

/-- Claim C5 (code bug): an INFO envelope tagged CHANNEL_REQ but carrying
VST_CREATE's fields is not rejected with a DECODE error: the untagged decode
selects `InfoData::CHANNEL_REQ` by shape (ignoring the unknown `user_id`
field and the declared type tag), and the identified handler consequently
treats it as a valid channel request and replies CHANNEL_ASSIGN. -/
theorem info_mismatched_payload_accepted :
    get_infotype (some jInfoMismatch) =
      Except.ok (some (InfoType.CHANNEL_REQ, InfoData.CHANNEL_REQ ⟨"3", none⟩)) ∧
    handleText cfg0 "p" store0 true (some jInfoMismatch) rng0 =
      Except.ok (storeConflict, true,
        [Out.msg ⟨OpCode.INFO, MessageData.INFO InfoType.CHANNEL_ASSIGN
          (InfoData.CHANNEL_ASSIGN "3" none tok64)⟩]) := by
  exact ⟨by decide, by decide⟩

/-- Claim C6: on entry the connection stores the freshly generated nonce under
the peer's key and only then sends HELLO carrying the configured heartbeat
interval and that same nonce, which is exactly 10 alphanumeric characters. -/
theorem handshake_hello_first (peer : String) (h : Int) (rng : Nat → Nat)
    (hh : 0 ≤ h) :
    handshake peer h rng =
      [Ev.storeSet (peer ++ "_nonce") (genAlphanumeric rng 10),
       Ev.send (Out.msg ⟨OpCode.HELLO, MessageData.HELLO h (genAlphanumeric rng 10)⟩)] ∧
    (genAlphanumeric rng 10).length = 10 ∧
    (genAlphanumeric rng 10).data.all Char.isAlphanum = true := by
  refine ⟨rfl, ?_, ?_⟩
  · simp [genAlphanumeric, String.length]
  · simp only [genAlphanumeric, List.all_eq_true]
    intro c hc
    simp only [List.mem_map, List.mem_range] at hc
    obtain ⟨i, -, rfl⟩ := hc
    exact alphanumericChar_isAlphanum (rng i)

/-- Witness for C6 at interval 1 and the all-zero RNG stream. -/
theorem handshake_hello_first_witness :
    (0 : Int) ≤ 1 ∧
    (handshake "127.0.0.1:9" 1 rng0 =
      [Ev.storeSet ("127.0.0.1:9" ++ "_nonce") (genAlphanumeric rng0 10),
       Ev.send (Out.msg ⟨OpCode.HELLO, MessageData.HELLO 1 (genAlphanumeric rng0 10)⟩)] ∧
    (genAlphanumeric rng0 10).length = 10 ∧
    (genAlphanumeric rng0 10).data.all Char.isAlphanum = true) :=
  ⟨by decide, handshake_hello_first "127.0.0.1:9" 1 rng0 (by decide)⟩

/-- Claim C7 (code bug): decode is not a left inverse of encode.  Encoding the
typed CHANNEL_DESTROY envelope and decoding it back yields a structurally
different value — the untagged `InfoData` decode selects the CHANNEL_REQ
variant (first matching shape) instead of CHANNEL_DESTROY; likewise a
VST_UPDATE payload comes back as VST_DESTROY. -/
theorem decode_encode_not_inverse :
    get_opcode (encodeMessage msgChannelDestroy) =
      some (OpCode.INFO, MessageData.INFO InfoType.CHANNEL_DESTROY
        (InfoData.CHANNEL_REQ ⟨"1", none⟩)) ∧
    MessageData.INFO InfoType.CHANNEL_DESTROY (InfoData.CHANNEL_REQ ⟨"1", none⟩) ≠
      msgChannelDestroy.d ∧
    get_opcode (encodeMessage ⟨OpCode.INFO,
        MessageData.INFO InfoType.VST_UPDATE (InfoData.VST_UPDATE "s")⟩) =
      some (OpCode.INFO, MessageData.INFO InfoType.VST_UPDATE
        (InfoData.VST_DESTROY "s")) := by
  exact ⟨by decide, by decide, by decide⟩

/-- Claim C8 (code bug): both READY (sent on a successful IDENTIFY, here with
a genuine HMAC token for the stored nonce) and HEARTBEAT_ACK carry the
hard-coded health value 6.9, which is outside the interval [0, 1]. -/
theorem health_constant_out_of_range :
    handleText cfg0 "127.0.0.1:9" storeNonce false (some jIdentifyGood) rng0 =
      Except.ok (storeNonce, true,
        [Out.msg ⟨OpCode.READY, MessageData.READY (mkRat 69 10)⟩]) ∧
    handleText cfg0 "p" store0 true (some jHeartbeat) rng0 =
      Except.ok (store0, true,
        [Out.msg ⟨OpCode.HEARTBEAT_ACK, MessageData.HEARTBEAT_ACK (mkRat 69 10)⟩]) ∧
    ¬ (mkRat 69 10 ≤ 1) := by
  exact ⟨by decide, by decide, by decide⟩

/-- Claim C10: every error signal the handler emits renders as a plain text
frame whose content is exactly the decimal digits of its code (4000 / 4001 /
4002, never a JSON envelope, never a close frame), and the receive loop
continues after it. -/
theorem error_signals_inband_digits (cfg : Config) (peer : String) (st : Store)
    (idf : Bool) (f : InFrame) (rng : Nat → Nat) (st' : Store) (idf' : Bool)
    (outs : List Out) (ctl : LoopCtl)
    (h : handleFrame cfg peer st idf f rng = Except.ok (st', idf', outs, ctl))
    (c : ErrorCode) (hc : Out.err c ∈ outs) :
    renderOut (Out.err c) = WireFrame.text (toString c.val) ∧
    (toString c.val).data.all Char.isDigit = true ∧
    (c.val = 4000 ∨ c.val = 4001 ∨ c.val = 4002) ∧
    ctl = LoopCtl.cont := by
  refine ⟨rfl, by cases c <;> decide, by cases c <;> simp [ErrorCode.val], ?_⟩
  cases f with
  | close =>
    injection h with h1
    simp only [Prod.mk.injEq] at h1
    obtain ⟨rfl, rfl, rfl, rfl⟩ := h1
    cases hc
  | binary =>
    injection h with h1
    simp only [Prod.mk.injEq] at h1
    obtain ⟨rfl, rfl, rfl, rfl⟩ := h1
    cases hc
  | text j =>
    cases hx : handleText cfg peer st idf j rng with
    | error p => simp [handleFrame, hx, Except.map] at h
    | ok r =>
      simp only [handleFrame, hx, Except.map, Except.ok.injEq, Prod.mk.injEq] at h
      exact h.2.2.2.symm

/-- Witness for C10: the AUTH signal produced by an un-identified HEARTBEAT is
the digit string 4001, sent in-band, and the loop continues. -/
theorem error_signals_inband_digits_witness :
    renderOut (Out.err ErrorCode.AUTH) = WireFrame.text (toString ErrorCode.AUTH.val) ∧
    (toString ErrorCode.AUTH.val).data.all Char.isDigit = true ∧
    (ErrorCode.AUTH.val = 4000 ∨ ErrorCode.AUTH.val = 4001 ∨ ErrorCode.AUTH.val = 4002) ∧
    LoopCtl.cont = LoopCtl.cont :=
  error_signals_inband_digits cfg0 "p" store0 false (InFrame.text (some jHeartbeat))
    rng0 store0 false [Out.err ErrorCode.AUTH] LoopCtl.cont (by decide)
    ErrorCode.AUTH (by decide)
